import Mathlib

/-!
Verification development for the cryojax image-formation pipeline.

The sources under study are `cryojax/simulator/image.py`,
`cryojax/simulator/exposure.py` and `cryojax/simulator/detector.py`.
Collaborating modules that are outside the studied sources (the FFT
wrappers, filters, masks, the scattering configuration, the pipeline
state and the noise-source hierarchy) are modelled from the
specification; each such definition carries a doc comment saying so.

Arrays of the source are embedded as functions `Fin m → Fin n → R`;
`complex128` scalars are embedded as complex numbers with rational
components so that every definition is executable.
-/

namespace Cryojax

/-- Complex numbers with rational components: the exact embedding of the
`complex128` scalars of the source arrays. -/
structure QC where
  re : ℚ
  im : ℚ
deriving DecidableEq

theorem QC.ext2 {a b : QC} (h1 : a.re = b.re) (h2 : a.im = b.im) : a = b := by
  cases a; cases b; cases h1; cases h2; rfl

instance : Zero QC := ⟨⟨0, 0⟩⟩

instance : One QC := ⟨⟨1, 0⟩⟩

instance : Add QC := ⟨fun a b => ⟨a.re + b.re, a.im + b.im⟩⟩

instance : Neg QC := ⟨fun a => ⟨-a.re, -a.im⟩⟩

instance : Mul QC := ⟨fun a b => ⟨a.re * b.re - a.im * b.im, a.re * b.im + a.im * b.re⟩⟩

@[simp] theorem QC.zero_re : (0 : QC).re = 0 := rfl

@[simp] theorem QC.zero_im : (0 : QC).im = 0 := rfl

@[simp] theorem QC.one_re : (1 : QC).re = 1 := rfl

@[simp] theorem QC.one_im : (1 : QC).im = 0 := rfl

@[simp] theorem QC.add_re (a b : QC) : (a + b).re = a.re + b.re := rfl

@[simp] theorem QC.add_im (a b : QC) : (a + b).im = a.im + b.im := rfl

@[simp] theorem QC.neg_re (a : QC) : (-a).re = -a.re := rfl

@[simp] theorem QC.neg_im (a : QC) : (-a).im = -a.im := rfl

@[simp] theorem QC.mul_re (a b : QC) : (a * b).re = a.re * b.re - a.im * b.im := rfl

@[simp] theorem QC.mul_im (a b : QC) : (a * b).im = a.re * b.im + a.im * b.re := rfl

instance : CommRing QC where
  add := (· + ·)
  zero := 0
  neg := Neg.neg
  mul := (· * ·)
  one := 1
  nsmul := nsmulRec
  zsmul := zsmulRec
  add_assoc a b c := by apply QC.ext2 <;> simp <;> ring
  zero_add a := by apply QC.ext2 <;> simp
  add_zero a := by apply QC.ext2 <;> simp
  add_comm a b := by apply QC.ext2 <;> simp <;> ring
  neg_add_cancel a := by apply QC.ext2 <;> simp
  mul_assoc a b c := by apply QC.ext2 <;> simp <;> ring
  one_mul a := by apply QC.ext2 <;> simp
  mul_one a := by apply QC.ext2 <;> simp
  left_distrib a b c := by apply QC.ext2 <;> simp <;> ring
  right_distrib a b c := by apply QC.ext2 <;> simp <;> ring
  zero_mul a := by apply QC.ext2 <;> simp
  mul_zero a := by apply QC.ext2 <;> simp
  mul_comm a b := by apply QC.ext2 <;> simp <;> ring

/-- Complex conjugation on `QC` (`jnp.conjugate` of the source). -/
def QC.conj (z : QC) : QC := ⟨z.re, -z.im⟩

/-- Embedding of a real scalar into `QC`. -/
def QC.ofRat (q : ℚ) : QC := ⟨q, 0⟩

/-- Division of a complex value by a real scalar, componentwise: the
meaning of `complex_array / real_array` in the source. -/
def QC.divQ (z : QC) (q : ℚ) : QC := ⟨z.re / q, z.im / q⟩

/-- A two-dimensional image of shape `(m, n)`, indexed like the arrays
of the source. -/
abbrev Img (R : Type) (m n : ℕ) := Fin m → Fin n → R

/-- `rescale_image` from `cryojax/simulator/exposure.py` (lines 71-107):
with `real = true` the image is `N * image + mu`; with `real = false`
every coefficient is multiplied by `N` and `mu * N1 * N2` is added to
the coefficient at index `(0, 0)`. -/
def rescale_image {R : Type} [CommRing R] {m n : ℕ}
    (image : Img R m n) (N mu : R) (real : Bool) : Img R m n :=
  if real then
    fun i j => N * image i j + mu
  else
    fun i j =>
      if i.val = 0 ∧ j.val = 0 then N * image i j + mu * ((m * n : ℕ) : R)
      else N * image i j

/-- C2: `rescale_image` with `real=True` returns `N*image + mu`
elementwise; with `real=False` it multiplies every coefficient by `N`
and adds `mu*N1*N2` to only the zero-frequency coefficient at index
`(0,0)`, leaving every other coefficient just scaled; and rescaling an
all-zero real-space `32 × 32` image with `N = 3`, `mu = 1/10` yields the
uniform image of value `1/10`. -/
theorem rescale_image_spec {R : Type} [CommRing R] {m n : ℕ}
    (image : Img R m n) (N mu : R) :
    (∀ i j, rescale_image image N mu true i j = N * image i j + mu) ∧
    (∀ i j, rescale_image image N mu false i j =
      N * image i j + (if i.val = 0 ∧ j.val = 0 then mu * ((m * n : ℕ) : R) else 0)) ∧
    rescale_image (fun _ _ => (0 : ℚ) : Img ℚ 32 32) 3 (1/10) true = fun _ _ => (1/10 : ℚ) := by
  refine ⟨fun i j => rfl, fun i j => ?_, ?_⟩
  · by_cases h : i.val = 0 ∧ j.val = 0
    · simp [rescale_image, h]
    · simp [rescale_image, h]
  · funext i j
    simp [rescale_image]

/-- Modelled from the spec: the out-of-scope forward Fourier transform
is the two-dimensional discrete Fourier transform. `DFTData` carries a
root of unity for one axis together with the vanishing geometric sums
that characterise it. -/
structure DFTData (R : Type) [CommRing R] (m : ℕ) where
  ω : R
  sum_pow_eq_zero : ∀ k : ℕ, 0 < k → k < m → (∑ j : Fin m, ω ^ (j.val * k)) = 0

/-- Modelled from the spec: `forward_transform` — the 2-D discrete
Fourier transform of an image, with the zero-frequency coefficient at
index `(0, 0)`. -/
def fourier_transform {R : Type} [CommRing R] {m n : ℕ}
    (d1 : DFTData R m) (d2 : DFTData R n) (x : Img R m n) : Img R m n :=
  fun k1 k2 =>
    ∑ j1 : Fin m, ∑ j2 : Fin n,
      x j1 j2 * d1.ω ^ (j1.val * k1.val) * d2.ω ^ (j2.val * k2.val)

/-- The character sum of one DFT axis at integer frequency `k`. -/
def dftSum {R : Type} [CommRing R] {m : ℕ} (d : DFTData R m) (k : ℕ) : R :=
  ∑ j : Fin m, d.ω ^ (j.val * k)

theorem dftSum_zero {R : Type} [CommRing R] {m : ℕ} (d : DFTData R m) :
    dftSum d 0 = (m : R) := by
  simp [dftSum]

/-- The DFT of an affinely rescaled image splits into the scaled DFT
plus the offset times the product of the axis character sums. -/
theorem fourier_transform_affine {R : Type} [CommRing R] {m n : ℕ}
    (d1 : DFTData R m) (d2 : DFTData R n) (x : Img R m n) (N mu : R)
    (k1 : Fin m) (k2 : Fin n) :
    fourier_transform d1 d2 (fun i j => N * x i j + mu) k1 k2
      = N * fourier_transform d1 d2 x k1 k2
        + mu * (dftSum d1 k1.val * dftSum d2 k2.val) := by
  unfold fourier_transform dftSum
  calc
    ∑ j1 : Fin m, ∑ j2 : Fin n,
        (N * x j1 j2 + mu) * d1.ω ^ (j1.val * k1.val) * d2.ω ^ (j2.val * k2.val)
      = ∑ j1 : Fin m, ∑ j2 : Fin n,
          (N * (x j1 j2 * d1.ω ^ (j1.val * k1.val) * d2.ω ^ (j2.val * k2.val))
            + mu * (d1.ω ^ (j1.val * k1.val) * d2.ω ^ (j2.val * k2.val))) := by
        apply Finset.sum_congr rfl
        intro j1 _
        apply Finset.sum_congr rfl
        intro j2 _
        ring
    _ = (∑ j1 : Fin m, ∑ j2 : Fin n,
          N * (x j1 j2 * d1.ω ^ (j1.val * k1.val) * d2.ω ^ (j2.val * k2.val)))
        + ∑ j1 : Fin m, ∑ j2 : Fin n,
            mu * (d1.ω ^ (j1.val * k1.val) * d2.ω ^ (j2.val * k2.val)) := by
        simp [Finset.sum_add_distrib]
    _ = N * (∑ j1 : Fin m, ∑ j2 : Fin n,
            x j1 j2 * d1.ω ^ (j1.val * k1.val) * d2.ω ^ (j2.val * k2.val))
        + mu * ∑ j1 : Fin m, ∑ j2 : Fin n,
            d1.ω ^ (j1.val * k1.val) * d2.ω ^ (j2.val * k2.val) := by
        simp [Finset.mul_sum]
    _ = N * (∑ j1 : Fin m, ∑ j2 : Fin n,
            x j1 j2 * d1.ω ^ (j1.val * k1.val) * d2.ω ^ (j2.val * k2.val))
        + mu * ((∑ j1 : Fin m, d1.ω ^ (j1.val * k1.val))
            * ∑ j2 : Fin n, d2.ω ^ (j2.val * k2.val)) := by
        rw [Finset.sum_mul_sum]

/-- C6: the real-space rescale followed by the forward Fourier
transform equals the forward Fourier transform followed by the
Fourier-space rescale, exactly. -/
theorem fourier_transform_rescale_comm {R : Type} [CommRing R] {m n : ℕ}
    (d1 : DFTData R m) (d2 : DFTData R n) (x : Img R m n) (N mu : R) :
    fourier_transform d1 d2 (rescale_image x N mu true)
      = rescale_image (fourier_transform d1 d2 x) N mu false := by
  funext k1 k2
  have hsplit := fourier_transform_affine d1 d2 x N mu k1 k2
  have hL : fourier_transform d1 d2 (rescale_image x N mu true) k1 k2
      = fourier_transform d1 d2 (fun i j => N * x i j + mu) k1 k2 := rfl
  rw [hL, hsplit]
  by_cases hk : k1.val = 0 ∧ k2.val = 0
  · obtain ⟨h1, h2⟩ := hk
    have e1 : dftSum d1 k1.val = (m : R) := by rw [h1]; exact dftSum_zero d1
    have e2 : dftSum d2 k2.val = (n : R) := by rw [h2]; exact dftSum_zero d2
    rw [e1, e2]
    show _ = rescale_image (fourier_transform d1 d2 x) N mu false k1 k2
    unfold rescale_image
    simp only [Bool.false_eq_true, if_false, h1, h2, and_self, if_true]
    push_cast
    ring
  · have hz : dftSum d1 k1.val * dftSum d2 k2.val = 0 := by
      rcases Nat.eq_zero_or_pos k1.val with h1 | h1
      · have h2 : 0 < k2.val := by
          rcases Nat.eq_zero_or_pos k2.val with h2 | h2
          · exact absurd ⟨h1, h2⟩ hk
          · exact h2
        have := d2.sum_pow_eq_zero k2.val h2 k2.isLt
        rw [show dftSum d2 k2.val = 0 from this]
        ring
      · have := d1.sum_pow_eq_zero k1.val h1 k1.isLt
        rw [show dftSum d1 k1.val = 0 from this]
        ring
    rw [hz]
    show _ = rescale_image (fourier_transform d1 d2 x) N mu false k1 k2
    unfold rescale_image
    simp only [Bool.false_eq_true, if_false, hk]
    ring

/-- A concrete instantiation of the DFT data: `ω = -1` is a second root
of unity over `ℚ`, so the size-2 transform is realised exactly. -/
def dftDataTwo : DFTData ℚ 2 :=
  ⟨-1, by
    intro k h1 h2
    interval_cases k
    simp [Fin.sum_univ_two]⟩

/-- Elementwise division of a frequency grid by a scalar pixel size:
`freqs / pixel_size` of the source. -/
def divGrid {a b : ℕ} (grid : Fin a → Fin b → ℚ × ℚ) (s : ℚ) :
    Fin a → Fin b → ℚ × ℚ :=
  fun i j => ((grid i j).1 / s, (grid i j).2 / s)

/-- Modelled from the spec: the scattering/grid configuration — image
shape `(m, n)`, padded shape `(pm, pn)`, pixel size and the two
frequency grids, together with the shape-exact `crop`/`pad` pair (crop
restricts to the leading block, pad embeds with a constant fill). -/
structure ScatteringConfig (m n pm pn : ℕ) where
  pixel_size : ℚ
  freqs : Fin m → Fin n → ℚ × ℚ
  padded_freqs : Fin pm → Fin pn → ℚ × ℚ
  m_le_pm : m ≤ pm
  n_le_pn : n ≤ pn

/-- The unpadded shape of the configuration. -/
def ScatteringConfig.shape {m n pm pn : ℕ} (_ : ScatteringConfig m n pm pn) :
    ℕ × ℕ := (m, n)

/-- The padded shape of the configuration. -/
def ScatteringConfig.padded_shape {m n pm pn : ℕ}
    (_ : ScatteringConfig m n pm pn) : ℕ × ℕ := (pm, pn)

/-- Modelled from the spec: `crop` restricts a padded image to the
unpadded shape. -/
def ScatteringConfig.crop {m n pm pn : ℕ} (cfg : ScatteringConfig m n pm pn)
    (img : Img QC pm pn) : Img QC m n :=
  fun i j => img (Fin.castLE cfg.m_le_pm i) (Fin.castLE cfg.n_le_pn j)

/-- Modelled from the spec: `pad` embeds an image in the padded canvas,
filling with the given constant. -/
def ScatteringConfig.pad {m n pm pn : ℕ} (_cfg : ScatteringConfig m n pm pn)
    (img : Img QC m n) (c : QC) : Img QC pm pn :=
  fun i j =>
    if h : i.val < m ∧ j.val < n then img ⟨i.val, h.1⟩ ⟨j.val, h.2⟩ else c

/-- Modelled from the spec: the optics/CTF stage — a pointwise transfer
function over frequencies plus a magnification factor. -/
structure Optics where
  magnification : ℚ
  tf : ℚ × ℚ → ℚ

/-- Evaluating the transfer function pointwise over a frequency grid:
`state.optics(freqs)` of the source. -/
def Optics.evalGrid (o : Optics) {a b : ℕ} (grid : Fin a → Fin b → ℚ × ℚ) :
    Img ℚ a b :=
  fun i j => o.tf (grid i j)

/-- Modelled from the spec: `Optics.apply` is an elementwise multiply of
the transfer function against a Fourier-space image. -/
def Optics.apply {a b : ℕ} (ctf : Img ℚ a b) (img : Img QC a b) :
    Img QC a b :=
  fun i j => QC.ofRat (ctf i j) * img i j

/-- The exposure models of `cryojax/simulator/exposure.py`:
`NullExposure` returns the image unchanged and `UniformExposure N mu`
rescales via `rescale_image`. The pipeline invokes the method with its
default `real = false` flag. -/
inductive Exposure where
  | null
  | uniform (N mu : ℚ)

/-- `Exposure.scale` from `exposure.py` (lines 43-45 and 64-68). -/
def Exposure.scale {a b : ℕ} : Exposure → Img QC a b → Bool → Img QC a b
  | .null, img, _ => img
  | .uniform N mu, img, real =>
      rescale_image img (QC.ofRat N) (QC.ofRat mu) real

/-- Modelled from the spec: a noise source is polymorphic over
{Null, Gaussian}. The Null variant samples to zeros (as
`NullDetector.sample` in `detector.py` lines 67-70); the Gaussian
variant carries a pointwise variance kernel and an opaque,
key-suppressed sampling function usable at any grid shape. -/
inductive NoiseModel where
  | null
  | gaussian (variance : ℚ × ℚ → ℚ)
      (samp : (a : ℕ) → (b : ℕ) → (Fin a → Fin b → ℚ × ℚ) → Img QC a b)

/-- Draw a realization from the noise source at a frequency grid. -/
def NoiseModel.sample :
    NoiseModel → (a : ℕ) → (b : ℕ) → (Fin a → Fin b → ℚ × ℚ) → Img QC a b
  | .null, _, _, _ => 0
  | .gaussian _ s, a, b, grid => s a b grid

/-- The variance kernel of the noise source at one frequency; junk
(zero) on the Null variant, whose variance the spec leaves undefined. -/
def NoiseModel.varianceAt : NoiseModel → ℚ × ℚ → ℚ
  | .null, _ => 0
  | .gaussian v _, f => v f

/-- Whether the source is the Gaussian variant: the
`isinstance(-, GaussianNoise)` test of the source. -/
def NoiseModel.isGaussian : NoiseModel → Bool
  | .null => false
  | .gaussian _ _ => true

/-- A posed specimen, the result of `specimen.view(pose)`: it exposes
the opaque projection operator `scatter` (spec section 6). -/
structure Posed (m n pm pn : ℕ) where
  scatter : ScatteringConfig m n pm pn → Img QC pm pn

/-- The specimen collaborator: `view` returns a posed copy. The pose
type `P` is opaque. -/
structure Specimen (P : Type) (m n pm pn : ℕ) where
  view : P → Posed m n pm pn

/-- Modelled from the spec: the immutable parameter state aggregating
one instance each of pose, optics, exposure, ice noise source and
detector noise source. -/
structure PipelineState (P : Type) where
  pose : P
  optics : Optics
  exposure : Exposure
  ice : NoiseModel
  detector : NoiseModel

/-- Modelled from the spec: the out-of-scope numeric kernels imported by
`image.py` — the FFT pair at the padded shape (`fftP`/`ifftP`/`irfftP`)
and at the unpadded shape (`fftS`/`ifftS`/`irfftS`), and the
`mean`/`std` array reductions used by the observed-data preprocessing.
Of the linearity of the Fourier transforms only the zero-preservation
facts needed by the claims are recorded. -/
structure ArrayOps (m n pm pn : ℕ) where
  fftP : Img QC pm pn → Img QC pm pn
  ifftP : Img QC pm pn → Img QC pm pn
  irfftP : Img QC pm pn → Img QC pm pn
  fftS : Img QC m n → Img QC m n
  ifftS : Img QC m n → Img QC m n
  irfftS : Img QC m n → Img QC m n
  meanS : Img QC m n → QC
  stdS : Img QC m n → QC
  fftS_zero : fftS 0 = 0
  ifftS_zero : ifftS 0 = 0
  ifftP_zero : ifftP 0 = 0

/-- Apply an ordered list of pointwise multiplicative kernels — the loop
bodies of `Image.filter` and `Image.mask` (lines 144-154), with the
filters and masks themselves modelled from the spec as pointwise
multiplications. -/
def applyKernels {a b : ℕ} : List (Img ℚ a b) → Img QC a b → Img QC a b
  | [], img => img
  | k :: ks, img => applyKernels ks (fun i j => QC.ofRat (k i j) * img i j)

/-- Modelled from the spec: the default `LowpassFilter` antialiasing
kernel — an indicator of frequencies below the cutoff. -/
def lowpassKernel {a b : ℕ} (grid : Fin a → Fin b → ℚ × ℚ) (cutoff : ℚ) :
    Img ℚ a b :=
  fun i j => if (grid i j).1 ^ 2 + (grid i j).2 ^ 2 ≤ cutoff ^ 2 then 1 else 0

/-- The pipeline object of `image.py` (`Image` and its concrete
levels). Filters act on padded Fourier images and masks on unpadded
images. `updState`/`updSpecimen` carry the opaque
`PipelineState.update`/`Specimen.update` parameter-patch semantics
(modelled from the spec: a patch composes a new immutable value). -/
structure Image (P Prm : Type) (m n pm pn : ℕ) where
  state : PipelineState P
  specimen : Specimen P m n pm pn
  scattering : ScatteringConfig m n pm pn
  ops : ArrayOps m n pm pn
  filters : List (Img ℚ pm pn)
  masks : List (Img ℚ m n)
  observed : Option (Img QC m n)
  set_observed : Bool
  updState : Prm → PipelineState P → PipelineState P
  updSpecimen : Prm → Specimen P m n pm pn → Specimen P m n pm pn

variable {P Prm : Type} {m n pm pn : ℕ}

/-- `Image.filter` (lines 144-148). -/
def Image.filter (g : Image P Prm m n pm pn) (img : Img QC pm pn) :
    Img QC pm pn :=
  applyKernels g.filters img

/-- `Image.mask` (lines 150-154). -/
def Image.mask (g : Image P Prm m n pm pn) (img : Img QC m n) :
    Img QC m n :=
  applyKernels g.masks img

/-- The observed-data preprocessing performed once by
`Image.__post_init__` (lines 86-95): inverse transform, pad with the
mean, forward transform, filter, inverse transform, crop, rescale by
the original std/mean (Fourier-branch `rescale_image`, the source's
default flag), mask, forward transform. -/
def preprocessObserved (cfg : ScatteringConfig m n pm pn)
    (ops : ArrayOps m n pm pn) (filters : List (Img ℚ pm pn))
    (masks : List (Img ℚ m n)) (observed : Img QC m n) : Img QC m n :=
  let x1 := ops.irfftS observed
  let mean := ops.meanS x1
  let sd := ops.stdS x1
  let x2 := ops.fftP (cfg.pad x1 mean)
  let x3 := cfg.crop (ops.irfftP (applyKernels filters x2))
  let x4 := rescale_image x3 sd mean false
  ops.fftS (applyKernels masks x4)

/-- The `Image` constructor together with `__post_init__`
(lines 74-96): default antialias filter at cutoff `0.667`, default
empty mask list, and observed preprocessing gated on `set_observed`. -/
def Image.make (state : PipelineState P) (specimen : Specimen P m n pm pn)
    (cfg : ScatteringConfig m n pm pn) (ops : ArrayOps m n pm pn)
    (filtersOpt : Option (List (Img ℚ pm pn)))
    (masksOpt : Option (List (Img ℚ m n)))
    (observedOpt : Option (Img QC m n)) (set_observed : Bool)
    (updState : Prm → PipelineState P → PipelineState P)
    (updSpecimen : Prm → Specimen P m n pm pn → Specimen P m n pm pn) :
    Image P Prm m n pm pn :=
  let filters := filtersOpt.getD [lowpassKernel cfg.padded_freqs (667/1000)]
  let masks := masksOpt.getD []
  let observed :=
    match observedOpt, set_observed with
    | some o, true => some (preprocessObserved cfg ops filters masks o)
    | _, _ => observedOpt
  ⟨state, specimen, cfg, ops, filters, masks, observed, set_observed,
    updState, updSpecimen⟩

/-- `GaussianImage.__post_init__` (lines 349-352): the parent
construction plus the assertions that the ice and the detector noise
sources are Gaussian; an assertion failure is modelled as `none`. -/
def GaussianImage.make (state : PipelineState P)
    (specimen : Specimen P m n pm pn) (cfg : ScatteringConfig m n pm pn)
    (ops : ArrayOps m n pm pn) (filtersOpt : Option (List (Img ℚ pm pn)))
    (masksOpt : Option (List (Img ℚ m n)))
    (observedOpt : Option (Img QC m n)) (set_observed : Bool)
    (updState : Prm → PipelineState P → PipelineState P)
    (updSpecimen : Prm → Specimen P m n pm pn → Specimen P m n pm pn) :
    Option (Image P Prm m n pm pn) :=
  if state.ice.isGaussian && state.detector.isGaussian then
    some (Image.make state specimen cfg ops filtersOpt masksOpt observedOpt
      set_observed updState updSpecimen)
  else none

/-- `Image.update` (lines 168-176): a new pipeline with the patched
state and specimen and `set_observed = False`; every other field —
including the cached observed buffer — is carried over by `replace`
(modelled from the spec: `update` reuses the already-preprocessed
buffer). -/
def Image.update (g : Image P Prm m n pm pn) (p : Prm) :
    Image P Prm m n pm pn :=
  { g with
    state := g.updState p g.state
    specimen := g.updSpecimen p g.specimen
    set_observed := false }

/-- `ScatteringImage.render` before the `view` branch (lines 192-199):
the filtered scattering pattern at the padded shape. Line 196 of the
source views `self.specimen` and discards the resolved `specimen`
argument, which is therefore dead here. -/
def ScatteringImage.render_noview (g : Image P Prm m n pm pn)
    (stO : Option (PipelineState P)) (spO : Option (Specimen P m n pm pn)) :
    Img QC pm pn :=
  let st := stO.getD g.state
  let _sp := spO.getD g.specimen
  g.filter ((g.specimen.view st.pose).scatter g.scattering)

/-- `ScatteringImage.render` with its default `view=True`
(lines 185-210): crop, exposure-rescale, mask, forward transform. -/
def ScatteringImage.render (g : Image P Prm m n pm pn)
    (stO : Option (PipelineState P)) (spO : Option (Specimen P m n pm pn)) :
    Img QC m n :=
  g.ops.fftS (g.mask (Exposure.scale (stO.getD g.state).exposure
    (g.scattering.crop (g.ops.ifftP (ScatteringImage.render_noview g stO spO)))
    false))

/-- An image paired with its shape, for stating shape invariants. -/
structure SizedImg where
  rows : ℕ
  cols : ℕ
  data : Img QC rows cols

/-- The shape of a sized image. -/
def SizedImg.shape (s : SizedImg) : ℕ × ℕ := (s.rows, s.cols)

/-- `ScatteringImage.render` including the `view` flag, returning the
image together with its shape. -/
def ScatteringImage.renderSized (g : Image P Prm m n pm pn)
    (stO : Option (PipelineState P)) (spO : Option (Specimen P m n pm pn))
    (view : Bool) : SizedImg :=
  if view then ⟨m, n, ScatteringImage.render g stO spO⟩
  else ⟨pm, pn, ScatteringImage.render_noview g stO spO⟩

/-- `OpticsImage.render` (lines 251-278): the unviewed scattering
pattern, CTF multiply, then crop, exposure-rescale, mask and forward
transform. This level has no `view` parameter. -/
def OpticsImage.render (g : Image P Prm m n pm pn)
    (stO : Option (PipelineState P)) (spO : Option (Specimen P m n pm pn)) :
    Img QC m n :=
  let st := stO.getD g.state
  let sp := spO.getD g.specimen
  g.ops.fftS (g.mask (Exposure.scale st.exposure
    (g.scattering.crop (g.ops.ifftP
      (Optics.apply
        (st.optics.evalGrid (divGrid g.scattering.padded_freqs g.scattering.pixel_size))
        (ScatteringImage.render_noview g (some st) (some sp)))))
    false))

/-- `OpticsImage.render` with its shape (the output is always the
unpadded shape at this level). -/
def OpticsImage.renderSized (g : Image P Prm m n pm pn)
    (stO : Option (PipelineState P)) (spO : Option (Specimen P m n pm pn)) :
    SizedImg :=
  ⟨m, n, OpticsImage.render g stO spO⟩

/-- `ScatteringImage.sample` (lines 212-234): render plus a filtered,
viewed draw from the ice source at the padded grid. -/
def ScatteringImage.sample (g : Image P Prm m n pm pn)
    (stO : Option (PipelineState P)) (spO : Option (Specimen P m n pm pn)) :
    Img QC m n :=
  let st := stO.getD g.state
  let sp := spO.getD g.specimen
  ScatteringImage.render g (some st) (some sp)
    + g.ops.fftS (g.mask (g.scattering.crop (g.ops.ifftP
        (g.filter (st.ice.sample pm pn
          (divGrid g.scattering.padded_freqs g.scattering.pixel_size))))))

/-- `OpticsImage.sample` (lines 280-306): render plus a CTF-modulated,
filtered, viewed draw from the ice source. -/
def OpticsImage.sample (g : Image P Prm m n pm pn)
    (stO : Option (PipelineState P)) (spO : Option (Specimen P m n pm pn)) :
    Img QC m n :=
  let st := stO.getD g.state
  let sp := spO.getD g.specimen
  OpticsImage.render g (some st) (some sp)
    + g.ops.fftS (g.mask (g.scattering.crop (g.ops.ifftP
        (Optics.apply
          (st.optics.evalGrid (divGrid g.scattering.padded_freqs g.scattering.pixel_size))
          (g.filter (st.ice.sample pm pn
            (divGrid g.scattering.padded_freqs g.scattering.pixel_size)))))))

/-- `DetectorImage.sample` (lines 316-336): the optics-level sample plus
a masked draw from the detector source at the effective pixel size.
Line 328 of the source calls `super().sample(state)`, dropping the
resolved `specimen`. -/
def DetectorImage.sample (g : Image P Prm m n pm pn)
    (stO : Option (PipelineState P)) (spO : Option (Specimen P m n pm pn)) :
    Img QC m n :=
  let st := stO.getD g.state
  let _sp := spO.getD g.specimen
  OpticsImage.sample g (some st) none
    + g.ops.fftS (g.mask (g.ops.ifftS (st.detector.sample m n
        (divGrid g.scattering.freqs
          (g.scattering.pixel_size * st.optics.magnification)))))

/-- `Image.residuals` (lines 156-166): `observed - render`, with the
dynamic `self.render` dispatch carried as the `render` argument;
`observed - simulated` with no observed buffer is a failure, modelled
as `none`. -/
def Image.residuals (g : Image P Prm m n pm pn)
    (render : PipelineState P → Specimen P m n pm pn → Img QC m n)
    (stO : Option (PipelineState P)) (spO : Option (Specimen P m n pm pn)) :
    Option (Img QC m n) :=
  match g.observed with
  | none => none
  | some o => some (o - render (stO.getD g.state) (spO.getD g.specimen))

/-- `GaussianImage.log_likelihood` (lines 354-375): residuals against
the cached observed buffer, the detector variance at the effective
pixel size, the squared-CTF-weighted ice variance added when the ice
source is not Null, and the reduced chi-square loss. -/
def GaussianImage.log_likelihood (g : Image P Prm m n pm pn)
    (stO : Option (PipelineState P)) (spO : Option (Specimen P m n pm pn)) :
    Option ℚ :=
  let st := stO.getD g.state
  let sp := spO.getD g.specimen
  let eff := g.scattering.pixel_size * st.optics.magnification
  match Image.residuals g (fun s s2 => OpticsImage.render g (some s) (some s2))
      (some st) (some sp) with
  | none => none
  | some r =>
    let detVar : Img ℚ m n :=
      fun i j => st.detector.varianceAt (divGrid g.scattering.freqs eff i j)
    let v : Img ℚ m n :=
      if st.ice.isGaussian then
        fun i j => detVar i j
          + st.optics.tf (divGrid g.scattering.freqs g.scattering.pixel_size i j) ^ 2
            * st.ice.varianceAt (divGrid g.scattering.freqs g.scattering.pixel_size i j)
      else detVar
    let loss : QC :=
      ∑ i : Fin m, ∑ j : Fin n,
        QC.divQ (r i j * QC.conj (r i j)) (2 * v i j)
    some (loss.re / ((m * n : ℕ) : ℚ))

/-- `Image.__call__` (lines 127-142) at the Gaussian level: build the
patched state and specimen, then dispatch to `DetectorImage.sample`
when no observed data is cached and to `GaussianImage.log_likelihood`
otherwise. -/
def GaussianImage.call (g : Image P Prm m n pm pn) (p : Prm) :
    Img QC m n ⊕ Option ℚ :=
  let st := g.updState p g.state
  let sp := g.updSpecimen p g.specimen
  match g.observed with
  | none => Sum.inl (DetectorImage.sample g (some st) (some sp))
  | some _ => Sum.inr (GaussianImage.log_likelihood g (some st) (some sp))

theorem applyKernels_zero {a b : ℕ} (ks : List (Img ℚ a b)) :
    applyKernels ks (0 : Img QC a b) = 0 := by
  induction ks with
  | nil => rfl
  | cons k ks ih =>
    show applyKernels ks (fun i j => QC.ofRat (k i j) * (0 : Img QC a b) i j) = 0
    have h : (fun i j => QC.ofRat (k i j) * (0 : Img QC a b) i j)
        = (0 : Img QC a b) := by
      funext i j
      exact mul_zero _
    rw [h]
    exact ih

theorem Image.filter_zero (g : Image P Prm m n pm pn) :
    g.filter (0 : Img QC pm pn) = 0 :=
  applyKernels_zero g.filters

theorem Image.mask_zero (g : Image P Prm m n pm pn) :
    g.mask (0 : Img QC m n) = 0 :=
  applyKernels_zero g.masks

theorem crop_zero (cfg : ScatteringConfig m n pm pn) :
    cfg.crop (0 : Img QC pm pn) = 0 := rfl

theorem opticsApply_zero {a b : ℕ} (ctf : Img ℚ a b) :
    Optics.apply ctf (0 : Img QC a b) = 0 := by
  funext i j
  exact mul_zero _

/-- C4: on a pipeline evaluated at a state whose ice and detector noise
sources are both the Null variant, `DetectorImage.sample` coincides
exactly with `OpticsImage.render` — every noise contribution that
`sample` adds is the zero array. -/
theorem null_noise_sample_eq_render (g : Image P Prm m n pm pn)
    (stO : Option (PipelineState P))
    (h1 : (stO.getD g.state).ice = NoiseModel.null)
    (h2 : (stO.getD g.state).detector = NoiseModel.null) :
    DetectorImage.sample g stO none = OpticsImage.render g stO none := by
  simp only [DetectorImage.sample, OpticsImage.sample, OpticsImage.render,
    Option.getD_some, Option.getD_none, h1, h2, NoiseModel.sample,
    Image.filter_zero, Image.mask_zero, opticsApply_zero, crop_zero,
    g.ops.ifftP_zero, g.ops.ifftS_zero, g.ops.fftS_zero, add_zero]

/-- C7: the viewed render output carries the configuration's unpadded
shape at the scattering level (and the padded shape exactly when
`view = false` is requested), and the optics-level render always
carries the unpadded shape. -/
theorem render_shape_invariant (g : Image P Prm m n pm pn)
    (stO : Option (PipelineState P)) (spO : Option (Specimen P m n pm pn))
    (view : Bool) :
    (ScatteringImage.renderSized g stO spO view).shape
        = (if view then g.scattering.shape else g.scattering.padded_shape)
    ∧ (OpticsImage.renderSized g stO spO).shape = g.scattering.shape := by
  refine ⟨?_, rfl⟩
  cases view <;> rfl

/-- C8: `__call__` builds the patched state and specimen and dispatches
on the cached observed buffer — `sample` when it is absent,
`log_likelihood` when it is present. -/
theorem call_dispatch (g : Image P Prm m n pm pn) (p : Prm) :
    (g.observed = none → GaussianImage.call g p
        = Sum.inl (DetectorImage.sample g (some (g.updState p g.state))
            (some (g.updSpecimen p g.specimen))))
    ∧ (∀ o, g.observed = some o → GaussianImage.call g p
        = Sum.inr (GaussianImage.log_likelihood g (some (g.updState p g.state))
            (some (g.updSpecimen p g.specimen)))) := by
  constructor
  · intro h
    simp [GaussianImage.call, h]
  · intro o h
    simp [GaussianImage.call, h]

/-- C9: `residuals` returns `observed - render(state, specimen)` when an
observed buffer was supplied at construction, and fails (here: `none`)
when none was. -/
theorem residuals_spec (g : Image P Prm m n pm pn)
    (render : PipelineState P → Specimen P m n pm pn → Img QC m n)
    (stO : Option (PipelineState P)) (spO : Option (Specimen P m n pm pn)) :
    (∀ o, g.observed = some o →
        Image.residuals g render stO spO
          = some (o - render (stO.getD g.state) (spO.getD g.specimen)))
    ∧ (g.observed = none → Image.residuals g render stO spO = none) := by
  constructor
  · intro o h
    simp [Image.residuals, h]
  · intro h
    simp [Image.residuals, h]

/-- C5: `update` produces a pipeline whose state and specimen are the
patched ones, with every other field — the scattering configuration,
filters, masks and in particular the cached observed buffer — carried
over unchanged and `set_observed` cleared; a pipeline constructed with
observed data caches the buffer preprocessed once, and `update` reuses
that very buffer without re-running the preprocessing. -/
theorem update_immutable (g : Image P Prm m n pm pn) (p : Prm) :
    (g.update p).state = g.updState p g.state
    ∧ (g.update p).specimen = g.updSpecimen p g.specimen
    ∧ (g.update p).observed = g.observed
    ∧ (g.update p).scattering = g.scattering
    ∧ (g.update p).filters = g.filters
    ∧ (g.update p).masks = g.masks
    ∧ (g.update p).set_observed = false
    ∧ ∀ (st : PipelineState P) (sp : Specimen P m n pm pn)
        (cfg : ScatteringConfig m n pm pn) (ops : ArrayOps m n pm pn)
        (fO : Option (List (Img ℚ pm pn))) (mO : Option (List (Img ℚ m n)))
        (obs : Img QC m n)
        (uS : Prm → PipelineState P → PipelineState P)
        (uSp : Prm → Specimen P m n pm pn → Specimen P m n pm pn),
        (Image.make st sp cfg ops fO mO (some obs) true uS uSp).observed
            = some (preprocessObserved cfg ops
                (fO.getD [lowpassKernel cfg.padded_freqs (667/1000)])
                (mO.getD []) obs)
          ∧ ((Image.make st sp cfg ops fO mO (some obs) true uS uSp).update p).observed
            = (Image.make st sp cfg ops fO mO (some obs) true uS uSp).observed := by
  refine ⟨rfl, rfl, rfl, rfl, rfl, rfl, rfl, ?_⟩
  intro st sp cfg ops fO mO obs uS uSp
  exact ⟨rfl, rfl⟩

/-- C10: the Gaussian-level constructor rejects (fails its assertions)
exactly when the ice or the detector noise source is not Gaussian — in
particular when either is the Null variant — while the lower-level
constructor is total and accepts the same state unchanged. -/
theorem gaussian_construction (st : PipelineState P)
    (sp : Specimen P m n pm pn) (cfg : ScatteringConfig m n pm pn)
    (ops : ArrayOps m n pm pn) (fO : Option (List (Img ℚ pm pn)))
    (mO : Option (List (Img ℚ m n))) (obsO : Option (Img QC m n)) (so : Bool)
    (uS : Prm → PipelineState P → PipelineState P)
    (uSp : Prm → Specimen P m n pm pn → Specimen P m n pm pn) :
    (GaussianImage.make st sp cfg ops fO mO obsO so uS uSp
        = if st.ice.isGaussian && st.detector.isGaussian
          then some (Image.make st sp cfg ops fO mO obsO so uS uSp) else none)
    ∧ (GaussianImage.make st sp cfg ops fO mO obsO so uS uSp = none
        ↔ st.ice = NoiseModel.null ∨ st.detector = NoiseModel.null)
    ∧ (Image.make st sp cfg ops fO mO obsO so uS uSp).state = st := by
  refine ⟨rfl, ?_, rfl⟩
  cases hI : st.ice <;> cases hD : st.detector <;>
    simp [GaussianImage.make, NoiseModel.isGaussian, hI, hD]

/-- Definition following the words of claim C1: the scalar
`real(sum(residuals * conj(residuals) / (2 * variance))) / size`, where
`residuals = observed - render(state, specimen)` and the per-frequency
variance is the detector variance kernel at the frequencies divided by
the effective pixel size (`pixel_size * magnification`), plus — if and
only if the ice noise source is not a Null source — the squared CTF at
the object pixel size times the ice variance kernel at the object pixel
size. -/
def GaussianImage.log_likelihood_specified (g : Image P Prm m n pm pn)
    (st : PipelineState P) (sp : Specimen P m n pm pn)
    (kd : ℚ × ℚ → ℚ) (o : Img QC m n) : ℚ :=
  let residuals : Img QC m n := o - OpticsImage.render g (some st) (some sp)
  let variance : Img ℚ m n := fun i j =>
    kd (divGrid g.scattering.freqs
          (g.scattering.pixel_size * st.optics.magnification) i j)
    + (match st.ice with
       | NoiseModel.null => 0
       | NoiseModel.gaussian vI _ =>
           st.optics.tf (divGrid g.scattering.freqs g.scattering.pixel_size i j) ^ 2
             * vI (divGrid g.scattering.freqs g.scattering.pixel_size i j))
  (∑ i : Fin m, ∑ j : Fin n,
      QC.divQ (residuals i j * QC.conj (residuals i j)) (2 * variance i j)).re
    / ((m * n : ℕ) : ℚ)

/-- C1: on a pipeline with cached observed data and a Gaussian detector
with variance kernel `kd`, `GaussianImage.log_likelihood` returns
exactly the value written in the claim. -/
theorem log_likelihood_spec (g : Image P Prm m n pm pn)
    (stO : Option (PipelineState P)) (spO : Option (Specimen P m n pm pn))
    (o : Img QC m n) (kd : ℚ × ℚ → ℚ)
    (sd : (a : ℕ) → (b : ℕ) → (Fin a → Fin b → ℚ × ℚ) → Img QC a b)
    (hobs : g.observed = some o)
    (hdet : (stO.getD g.state).detector = NoiseModel.gaussian kd sd) :
    GaussianImage.log_likelihood g stO spO
      = some (GaussianImage.log_likelihood_specified g (stO.getD g.state)
          (spO.getD g.specimen) kd o) := by
  cases hice : (stO.getD g.state).ice with
  | null =>
    simp [GaussianImage.log_likelihood, GaussianImage.log_likelihood_specified,
      Image.residuals, hobs, hice, hdet, NoiseModel.isGaussian,
      NoiseModel.varianceAt]
  | gaussian vI sI =>
    simp [GaussianImage.log_likelihood, GaussianImage.log_likelihood_specified,
      Image.residuals, hobs, hice, hdet, NoiseModel.isGaussian,
      NoiseModel.varianceAt]

/-! Concrete one-pixel instantiations used to evaluate the pipeline. -/

/-- Identity array operations on the one-pixel shape. -/
def wOps : ArrayOps 1 1 1 1 :=
  { fftP := id, ifftP := id, irfftP := id, fftS := id, ifftS := id,
    irfftS := id, meanS := fun img => img 0 0, stdS := fun _ => 1,
    fftS_zero := rfl, ifftS_zero := rfl, ifftP_zero := rfl }

/-- A one-pixel scattering configuration with unit pixel size. -/
def wCfg : ScatteringConfig 1 1 1 1 :=
  { pixel_size := 1, freqs := fun _ _ => (0, 0),
    padded_freqs := fun _ _ => (0, 0),
    m_le_pm := le_refl 1, n_le_pn := le_refl 1 }

/-- Identity optics: unit magnification and constant unit transfer
function. -/
def wOptics : Optics := ⟨1, fun _ => 1⟩

/-- A Gaussian noise source with unit variance kernel and zero draws. -/
def wGauss : NoiseModel :=
  NoiseModel.gaussian (fun _ => 1) (fun _ _ _ => 0)

/-- A state with Gaussian ice and detector sources. -/
def wState : PipelineState Unit :=
  ⟨(), wOptics, Exposure.null, wGauss, wGauss⟩

/-- A state with Null ice and detector sources. -/
def wNullState : PipelineState Unit :=
  ⟨(), wOptics, Exposure.null, NoiseModel.null, NoiseModel.null⟩

/-- A posed specimen projecting to the zero image. -/
def wPosedA : Posed 1 1 1 1 := ⟨fun _ => 0⟩

/-- A posed specimen projecting to the constant-one image. -/
def wPosedB : Posed 1 1 1 1 := ⟨fun _ => fun _ _ => ⟨1, 0⟩⟩

/-- The specimen held by the concrete pipeline. -/
def wSpecA : Specimen Unit 1 1 1 1 := ⟨fun _ => wPosedA⟩

/-- A different specimen, supplied as an explicit override. -/
def wSpecB : Specimen Unit 1 1 1 1 := ⟨fun _ => wPosedB⟩

/-- A one-pixel observed buffer. -/
def wObs : Img QC 1 1 := fun _ _ => ⟨1, 0⟩

/-- The concrete pipeline with cached observed data. -/
def wImage : Image Unit Unit 1 1 1 1 :=
  { state := wState, specimen := wSpecA, scattering := wCfg, ops := wOps,
    filters := [], masks := [], observed := some wObs, set_observed := true,
    updState := fun _ s => s, updSpecimen := fun _ s => s }

/-- The same pipeline without observed data. -/
def wImageNoObs : Image Unit Unit 1 1 1 1 :=
  { wImage with observed := none }

/-- C3: the render of the concrete pipeline called with the explicit
specimen override `wSpecB` still computes the image of the held
specimen `wSpecA` (the override is discarded by line 196 of the
source), and differs from the image a pipeline actually holding
`wSpecB` renders. -/
theorem render_ignores_specimen_argument :
    ScatteringImage.render wImage none (some wSpecB)
        = ScatteringImage.render wImage none none
    ∧ ScatteringImage.render wImage none (some wSpecB)
        ≠ ScatteringImage.render { wImage with specimen := wSpecB } none none := by
  constructor
  · rfl
  · decide

/-- Witness for C1: the hypotheses of `log_likelihood_spec` hold at the
concrete one-pixel pipeline. -/
theorem log_likelihood_spec_witness :
    GaussianImage.log_likelihood wImage (some wState) none
      = some (GaussianImage.log_likelihood_specified wImage wState wSpecA
          (fun _ => 1) wObs) :=
  log_likelihood_spec wImage (some wState) none wObs (fun _ => 1)
    (fun _ _ _ => 0) rfl rfl

/-- Witness for C4: the hypotheses of `null_noise_sample_eq_render`
hold at the concrete pipeline evaluated at the Null-noise state. -/
theorem null_noise_sample_eq_render_witness :
    DetectorImage.sample wImage (some wNullState) none
      = OpticsImage.render wImage (some wNullState) none :=
  null_noise_sample_eq_render wImage (some wNullState) rfl rfl

/-- Witness for C8: both dispatch branches of `call_dispatch` realised
at concrete pipelines. -/
theorem call_dispatch_witness :
    GaussianImage.call wImage ()
        = Sum.inr (GaussianImage.log_likelihood wImage
            (some (wImage.updState () wImage.state))
            (some (wImage.updSpecimen () wImage.specimen)))
    ∧ GaussianImage.call wImageNoObs ()
        = Sum.inl (DetectorImage.sample wImageNoObs
            (some (wImageNoObs.updState () wImageNoObs.state))
            (some (wImageNoObs.updSpecimen () wImageNoObs.specimen))) :=
  ⟨(call_dispatch wImage ()).2 wObs rfl, (call_dispatch wImageNoObs ()).1 rfl⟩

/-- Witness for C9: both branches of `residuals_spec` realised at
concrete pipelines. -/
theorem residuals_spec_witness :
    Image.residuals wImage (fun _ _ => 0) none none = some (wObs - 0)
    ∧ Image.residuals wImageNoObs (fun _ _ => 0) none none = none :=
  ⟨(residuals_spec wImage (fun _ _ => 0) none none).1 wObs rfl,
   (residuals_spec wImageNoObs (fun _ _ => 0) none none).2 rfl⟩

end Cryojax
